import Mathlib

/-!
# Booking & Approval Engine — shallow embedding

A shallow embedding of the booking and approval core of the medify
backend (Express + Mongoose controllers), together with theorems that
check the natural-language specification against the code.

Conventions of the embedding:
* Mongo object ids are `Nat`; a `DB` value holds each collection as a list.
* Dates: a request carries the canonical start-of-day value (`day : Nat`)
  and the weekday `moment(date).day()` (`dayOfWeek : Nat`) that the
  controllers derive from the same request date.
* `"HH:mm"` time strings are produced exactly as in the source
  (`String(h).padStart(2,'0') + ':' + String(m).padStart(2,'0')`); the
  stored `serialTimeRange` strings are represented by their parsed
  hour/minute components (the schema regex guarantees the `HH:mm` shape,
  so `split(':').map(Number)` is exactly that pair).
* Statuses are the literal strings the code compares against.
* An HTTP error response is `Except.error (statusCode, message)`.
* Mutating controllers return the updated `DB` next to the response;
  an error response leaves the `DB` unchanged, mirroring the fact that
  the code returns before any write.
-/

deriving instance DecidableEq for Except

/-- Embedding of `String(n).padStart(2, '0')` from the source. -/
def pad2 (n : Nat) : String :=
  if n < 10 then ("0") ++ toString n else toString n

/-- Rendering of a minutes-since-midnight value as `"HH:mm"`, exactly as
computed in `getAvailableSerials` / `bookSerial`
(`Math.floor(m / 60)` and `m % 60`, each padded to two digits). -/
def formatTime (m : Nat) : String :=
  pad2 (m / 60) ++ ":" ++ pad2 (m % 60)

/-- Embedding of `models/Doctor.model.js` — the fields the booking/approval core reads. -/
structure DoctorRec where
  id : Nat
  name : String
  email : String
  phone : String
  medicalLicenseNumber : String
  status : String
  hospitalId : Option Nat
  rejectionReason : Option String
  verifiedBy : Option Nat
  deriving Repr, DecidableEq

/-- Embedding of `models/Hospital.model.js` — the fields the booking/approval core reads. -/
structure HospitalRec where
  id : Nat
  userId : Nat
  name : String
  address : String
  registrationNumber : String
  contactInfo : String
  departments : List String
  logo : String
  facilities : List String
  services : List String
  status : String
  admins : List Nat
  associatedDoctors : List Nat
  rejectionReason : Option String
  verifiedBy : Option Nat
  deriving Repr, DecidableEq

/-- Embedding of `models/SerialSettings.model.js`.  `serialTimeRange.startTime` /
`.endTime` are kept as their parsed `HH:mm` components. -/
structure SerialSettingsRec where
  id : Nat
  doctorId : Nat
  hospitalId : Option Nat
  totalSerialsPerDay : Nat
  startHour : Nat
  startMin : Nat
  endHour : Nat
  endMin : Nat
  appointmentPrice : Nat
  isActive : Bool
  availableDays : List Nat
  deriving Repr, DecidableEq

/-- Embedding of `models/Appointment.model.js` — the fields the core reads and writes.
`cancelledAt` (a wall-clock timestamp) is omitted: no claim depends on it. -/
structure AppointmentRec where
  id : Nat
  patientId : Nat
  doctorId : Nat
  chamberId : Nat
  appointmentDate : Nat
  startTime : String
  endTime : String
  sessionDuration : Nat
  appointmentNumber : String
  consultationType : String
  fee : Nat
  status : String
  paymentStatus : String
  cancelledBy : Option String
  cancellationReason : Option String
  notes : String
  deriving Repr, DecidableEq

/-- Embedding of `models/Chamber.model.js` — the fields `bookSerial` touches. -/
structure ChamberRec where
  id : Nat
  doctorId : Nat
  hospitalId : Option Nat
  name : String
  consultationFee : Nat
  followUpFee : Nat
  isActive : Bool
  deriving Repr, DecidableEq

/-- Embedding of `models/Approval.model.js` — the audit-trail entry written by
`logApproval`.  The wall-clock `timestamp` is omitted: no claim depends
on it. -/
structure ApprovalRec where
  actorId : Nat
  actorRole : String
  targetType : String
  targetId : Nat
  action : String
  reason : Option String
  previousStatus : Option String
  newStatus : String
  deriving Repr, DecidableEq

/-- Embedding of `models/User.model.js` — the fields the approval core reads. -/
structure UserRec where
  id : Nat
  name : String
  email : String
  phone : String
  role : String
  isActive : Bool
  deriving Repr, DecidableEq

/-- The persistent store: one list per Mongo collection, plus a counter
supplying fresh object ids for `create` calls. -/
structure DB where
  users : List UserRec
  doctors : List DoctorRec
  hospitals : List HospitalRec
  serialSettings : List SerialSettingsRec
  appointments : List AppointmentRec
  chambers : List ChamberRec
  approvals : List ApprovalRec
  nextId : Nat
  deriving Repr, DecidableEq

/-- Embedding of `startMinutes` in both serial controllers: `startHour * 60 + startMin`. -/
def SerialSettingsRec.startMinutes (s : SerialSettingsRec) : Nat :=
  s.startHour * 60 + s.startMin

/-- Embedding of `endMinutes`: `endHour * 60 + endMin`. -/
def SerialSettingsRec.endMinutes (s : SerialSettingsRec) : Nat :=
  s.endHour * 60 + s.endMin

/-- Embedding of `totalMinutes = endMinutes - startMinutes`.  Nat subtraction: the
pre-save hook of the schema rejects any range with `endMinutes <= startMinutes`,
so reachable settings satisfy `startMinutes < endMinutes`. -/
def SerialSettingsRec.totalMinutes (s : SerialSettingsRec) : Nat :=
  s.endMinutes - s.startMinutes

/-- Embedding of `slotDuration = Math.floor(totalMinutes / totalSerialsPerDay)`. -/
def SerialSettingsRec.slotDuration (s : SerialSettingsRec) : Nat :=
  s.totalMinutes / s.totalSerialsPerDay

/-- Embedding of `slotMinutes = startMinutes + (i - 1) * slotDuration` for serial `i`. -/
def SerialSettingsRec.serialStart (s : SerialSettingsRec) (i : Nat) : Nat :=
  s.startMinutes + (i - 1) * s.slotDuration

/-- The reachable-state guarantees of `serialSettingsSchema`: the `HH:mm`
regex bounds on both endpoints, the pre-save `endMinutes > startMinutes`
validation, and `totalSerialsPerDay: { min: 1 }`. -/
def ValidSettings (s : SerialSettingsRec) : Prop :=
  s.startHour ≤ 23 ∧ s.startMin ≤ 59 ∧ s.endHour ≤ 23 ∧ s.endMin ≤ 59 ∧
    s.startMinutes < s.endMinutes ∧ 1 ≤ s.totalSerialsPerDay

instance (s : SerialSettingsRec) : Decidable (ValidSettings s) := by
  unfold ValidSettings; infer_instance

/-- One element of the `availableSerials` array built by
`getAvailableSerials`. -/
structure SerialSlot where
  serialNumber : Nat
  time : String
  endTime : String
  available : Bool
  deriving Repr, DecidableEq

/-- The serial-generation loop of `getAvailableSerials`
(`for (let i = 1; i <= totalSerials; i++)`): keep the even `i`, compute
the window from `slotDuration`, and drop slots whose start time already
appears among `bookedTimes`. -/
def availableSerialsList (s : SerialSettingsRec) (bookedTimes : List String) :
    List SerialSlot :=
  (List.range s.totalSerialsPerDay).filterMap (fun k =>
    let i := k + 1
    if i % 2 = 0 then
      let t := s.serialStart i
      let timeString := formatTime t
      if bookedTimes.contains timeString then none
      else some ⟨i, timeString, formatTime (t + s.slotDuration), true⟩
    else none)

/-- The `SerialSettings.findOne` dispatch shared by both serial
controllers: a hospital-based doctor (hospital present and `approved`)
uses the `(doctorId, hospitalId)` settings row, otherwise the individual
`(doctorId, hospitalId: null)` row; only `isActive` rows match. -/
def lookupSerialSettings (db : DB) (doctorId : Nat)
    (hospital : Option HospitalRec) : Option SerialSettingsRec :=
  match hospital with
  | some h =>
    if h.status = "approved" then
      db.serialSettings.find? (fun s =>
        s.doctorId == doctorId && s.hospitalId == some h.id && s.isActive)
    else
      db.serialSettings.find? (fun s =>
        s.doctorId == doctorId && s.hospitalId == none && s.isActive)
  | none =>
    db.serialSettings.find? (fun s =>
      s.doctorId == doctorId && s.hospitalId == none && s.isActive)

/-- The doctor / hospital / serial-settings resolution block that
`getAvailableSerials` and `bookSerial` both open with (verbatim-identical
code in `patient.controller.js`): 404 unless the doctor exists with
status `approved`; then the settings lookup above, 404 when absent. -/
def resolveDoctorSettings (db : DB) (doctorId : Nat) :
    Except (Nat × String) (DoctorRec × Option HospitalRec × SerialSettingsRec) :=
  match db.doctors.find? (fun d => d.id == doctorId) with
  | none => .error (404, "Doctor not found or not available")
  | some doctor =>
    if doctor.status ≠ "approved" then
      .error (404, "Doctor not found or not available")
    else
      let hospital : Option HospitalRec :=
        match doctor.hospitalId with
        | some hid => db.hospitals.find? (fun h => h.id == hid)
        | none => none
      match lookupSerialSettings db doctorId hospital with
      | none => .error (404, "Serial settings not found for this doctor")
      | some s => .ok (doctor, hospital, s)

/-- The non-terminal appointments of a doctor on a day:
`Appointment.find({ doctorId, appointmentDate: <that day>,
status: $in [pending, accepted] })`. -/
def nonTerminalBooked (db : DB) (doctorId day : Nat) : List AppointmentRec :=
  db.appointments.filter (fun a =>
    a.doctorId == doctorId && a.appointmentDate == day &&
      (a.status == "pending" || a.status == "accepted"))

/-- Request for `GET /doctors/:doctorId/serials`. -/
structure AvailReq where
  doctorId : Nat
  day : Nat
  dayOfWeek : Nat
  deriving Repr, DecidableEq

/-- The claim-relevant part of the success payload of
`getAvailableSerials`. -/
structure AvailOut where
  availableSerials : List SerialSlot
  totalSerials : Nat
  deriving Repr, DecidableEq

/-- Embedding of `getAvailableSerials` (`patient.controller.js`): resolve the doctor
and settings, return an empty list when `availableDays` is non-empty and
excludes the weekday, otherwise generate the even-serial slots minus the
already-booked start times. -/
def getAvailableSerials (db : DB) (r : AvailReq) :
    Except (Nat × String) AvailOut :=
  match resolveDoctorSettings db r.doctorId with
  | .error e => .error e
  | .ok (_, _, s) =>
    if !s.availableDays.isEmpty && !(s.availableDays.contains r.dayOfWeek) then
      .ok ⟨[], s.totalSerialsPerDay⟩
    else
      let bookedTimes :=
        (nonTerminalBooked db r.doctorId r.day).map (fun a => a.startTime)
      .ok ⟨availableSerialsList s bookedTimes, s.totalSerialsPerDay⟩

/-- Request body of `POST /serials/book` plus the authenticated patient
(`req.user._id`).  `serialNumber` is an `Int`: the route only validates
`isInt({ min: 1 })`, so the controller may still see any integer when the
outcome of the validator is modelled explicitly (first gate below). -/
structure BookReq where
  patientId : Nat
  doctorId : Nat
  serialNumber : Int
  day : Nat
  dayOfWeek : Nat
  deriving Repr, DecidableEq

/-- Everything `bookSerial` has read and computed by the time it reaches
its write phase (chamber get-or-create plus `Appointment.create`). -/
structure BookPlan where
  doctor : DoctorRec
  hospital : Option HospitalRec
  settings : SerialSettingsRec
  startTime : String
  endTime : String
  slotDur : Nat
  deriving Repr, DecidableEq

/-- The read/validation phase of `bookSerial` (`patient.controller.js`),
everything up to and including the `existingAppointment` conflict check.
Gate order follows the source: the route validator
(`body(serialNumber).isInt({ min: 1 })` checked via `validationResult`),
the even-serial rule, doctor/settings resolution, the `availableDays`
gate, the `[1, totalSerialsPerDay]` range check, then the
`findOne({... timeSlot.startTime, status $in
[pending,accepted]})` conflict probe.  `bookSerialGates` is the part
of that sequence that runs after the doctor and settings have resolved;
`bookSerialCheck` composes it with the shared resolution block and the
two serial-number gates that precede it. -/
def bookSerialGates (db : DB) (r : BookReq) (doctor : DoctorRec)
    (hospital : Option HospitalRec) (s : SerialSettingsRec) :
    Except (Nat × String) BookPlan :=
  if !s.availableDays.isEmpty && !(s.availableDays.contains r.dayOfWeek) then
    .error (400, "Serials are not available on this day")
  else if r.serialNumber < 1 ∨ (s.totalSerialsPerDay : Int) < r.serialNumber then
    .error (400, "Invalid serial number")
  else
    if (nonTerminalBooked db r.doctorId r.day).any
        (fun a => a.startTime ==
          formatTime (s.serialStart r.serialNumber.toNat)) then
      .error (400, "This serial is already booked")
    else
      .ok ⟨doctor, hospital, s,
           formatTime (s.serialStart r.serialNumber.toNat),
           formatTime (s.serialStart r.serialNumber.toNat + s.slotDuration),
           s.slotDuration⟩

def bookSerialCheck (db : DB) (r : BookReq) : Except (Nat × String) BookPlan :=
  if r.serialNumber < 1 then .error (400, "Validation failed")
  else if r.serialNumber.emod 2 ≠ 0 then
    .error (400, "Only even-numbered serials can be booked online")
  else
    match resolveDoctorSettings db r.doctorId with
    | .error e => .error e
    | .ok (doctor, hospital, s) => bookSerialGates db r doctor hospital s

/-- The write phase of `bookSerial`: find an active chamber or create a
default one, then `Appointment.create` with status `pending`.  The
appointmentNumber of the source (`SR-${Date.now()}-${random}`) is modelled
as `"SR-"` plus the fresh id; no claim depends on its exact shape. -/
def bookSerialCommit (db : DB) (r : BookReq) (p : BookPlan) :
    AppointmentRec × DB :=
  let (chamber, db1) :=
    match db.chambers.find? (fun c => c.doctorId == r.doctorId && c.isActive) with
    | some c => (c, db)
    | none =>
      let c : ChamberRec :=
        ⟨db.nextId, r.doctorId, p.hospital.map (fun (h : HospitalRec) => h.id),
         p.doctor.name ++ "\x27s Chamber", p.settings.appointmentPrice,
         p.settings.appointmentPrice, true⟩
      (c, { db with chambers := db.chambers ++ [c], nextId := db.nextId + 1 })
  let appt : AppointmentRec :=
    { id := db1.nextId
      patientId := r.patientId
      doctorId := r.doctorId
      chamberId := chamber.id
      appointmentDate := r.day
      startTime := p.startTime
      endTime := p.endTime
      sessionDuration := p.slotDur
      appointmentNumber := "SR-" ++ toString db1.nextId
      consultationType := "new"
      fee := p.settings.appointmentPrice
      status := "pending"
      paymentStatus := "pending"
      cancelledBy := none
      cancellationReason := none
      notes := "Serial #" ++ toString r.serialNumber }
  (appt, { db1 with appointments := db1.appointments ++ [appt],
                    nextId := db1.nextId + 1 })

/-- Embedding of `bookSerial` (`patient.controller.js`): the read phase followed, only
on success, by the write phase.  Notification dispatch after the write is
fire-and-forget and does not touch the modelled state. -/
def bookSerial (db : DB) (r : BookReq) :
    Except (Nat × String) AppointmentRec × DB :=
  match bookSerialCheck db r with
  | .error e => (.error e, db)
  | .ok p => (.ok (bookSerialCommit db r p).1, (bookSerialCommit db r p).2)

/-- One interleaved execution of two `bookSerial` handlers: each Mongoose
call is individually atomic but the handler wraps no transaction around
the `findOne` conflict probe and the later `Appointment.create`, so the
schedule check₁ · check₂ · commit₁ · commit₂ is a possible concurrent
run of the source.  Both error outcomes fall back to the sequential
composition. -/
def bookSerialPairInterleaved (db : DB) (r1 r2 : BookReq) :
    (Except (Nat × String) AppointmentRec ×
      Except (Nat × String) AppointmentRec) × DB :=
  match bookSerialCheck db r1, bookSerialCheck db r2 with
  | .ok p1, .ok p2 =>
    let (a1, db1) := bookSerialCommit db r1 p1
    let (a2, db2) := bookSerialCommit db1 r2 p2
    ((.ok a1, .ok a2), db2)
  | .error e1, _ =>
    let (o2, db2) := bookSerial db r2
    ((.error e1, o2), db2)
  | .ok p1, .error e2 =>
    let (a1, db1) := bookSerialCommit db r1 p1
    ((.ok a1, .error e2), db1)

/-- Request of `PUT /appointments/:appointmentId/cancel` plus the
authenticated patient. -/
structure CancelReq where
  patientId : Nat
  appointmentId : Nat
  reason : Option String
  deriving Repr, DecidableEq

/-- Embedding of `cancelAppointment` (`patient.controller.js`): find the appointment of the
patient, refuse when its status is `cancelled`, `completed` or
`no_show`, otherwise set status `cancelled` with `cancelledBy: patient`
and the given reason. -/
def cancelAppointment (db : DB) (r : CancelReq) :
    Except (Nat × String) AppointmentRec × DB :=
  match db.appointments.find? (fun a =>
      a.id == r.appointmentId && a.patientId == r.patientId) with
  | none => (.error (404, "Appointment not found"), db)
  | some a =>
    if a.status == "cancelled" || a.status == "completed" ||
        a.status == "no_show" then
      (.error (400, "Cannot cancel this appointment"), db)
    else
      let a' := { a with status := "cancelled", cancelledBy := some ("patient"),
                         cancellationReason := r.reason }
      (.ok a',
       { db with appointments :=
           db.appointments.map (fun x => if x.id == a.id then a' else x) })

/-- Request of `PUT /appointments/:appointmentId/status` on the doctor
portal: `req.user._id` resolves the doctor, the body carries the new
status and optional notes. -/
structure UpdStatusReq where
  doctorUserId : Nat
  appointmentId : Nat
  status : String
  notes : Option String
  deriving Repr, DecidableEq

/-- Embedding of `updateAppointmentStatus` (doctor portal controller): find the
appointment of the doctor and assign the requested status unconditionally —
the source performs no check of the previous status before
`appointment.status = status; await appointment.save()`. -/
def updateAppointmentStatus (db : DB) (r : UpdStatusReq) :
    Except (Nat × String) AppointmentRec × DB :=
  match db.doctors.find? (fun d => d.id == r.doctorUserId) with
  | none => (.error (404, "Doctor profile not found"), db)
  | some doctor =>
    match db.appointments.find? (fun a =>
        a.id == r.appointmentId && a.doctorId == doctor.id) with
    | none => (.error (404, "Appointment not found"), db)
    | some a =>
      let a' := { a with status := r.status,
                         notes := r.notes.getD a.notes }
      (.ok a',
       { db with appointments :=
           db.appointments.map (fun x => if x.id == a.id then a' else x) })

/-- Embedding of `logApproval` (hospital controller): `Approval.create` with the given
actor, target, action, reason and the verbatim previous/new statuses.
(The source swallows a failed insert after logging it; the embedding
models the successful insert.) -/
def logApproval (db : DB) (actorId : Nat) (actorRole targetType : String)
    (targetId : Nat) (action : String) (reason : Option String)
    (previousStatus : Option String) (newStatus : String) : DB :=
  { db with approvals := db.approvals ++
      [⟨actorId, actorRole, targetType, targetId, action, reason,
        previousStatus, newStatus⟩] }

/-- Body of `POST /api/hospitals/register`. -/
structure RegisterHospitalReq where
  name : String
  email : String
  phone : String
  password : String
  address : String
  registrationNumber : String
  documents : List String
  deriving Repr, DecidableEq

/-- Embedding of `registerHospital` (hospital controller): duplicate checks on
user email/phone and on the registration number, then creation of the
`hospital_admin` user (inactive) and of the hospital with status
`pending_super_admin`, followed by one `logApproval(register, null →
pending_super_admin)` entry. -/
def registerHospital (db : DB) (r : RegisterHospitalReq) :
    Except (Nat × String) HospitalRec × DB :=
  if db.users.any (fun u => u.email == r.email || u.phone == r.phone) then
    (.error (400, "User already exists with this email or phone"), db)
  else if db.hospitals.any
      (fun h => h.registrationNumber == r.registrationNumber) then
    (.error (400, "Registration number already exists"), db)
  else
    let user : UserRec :=
      ⟨db.nextId, r.name, r.email, r.phone, "hospital_admin", false⟩
    let hospital : HospitalRec :=
      { id := db.nextId + 1
        userId := user.id
        name := r.name
        address := r.address
        registrationNumber := r.registrationNumber
        contactInfo := ""
        departments := []
        logo := ""
        facilities := []
        services := []
        status := "pending_super_admin"
        admins := [user.id]
        associatedDoctors := []
        rejectionReason := none
        verifiedBy := none }
    let db1 := { db with users := db.users ++ [user],
                         hospitals := db.hospitals ++ [hospital],
                         nextId := db.nextId + 2 }
    (.ok hospital,
     logApproval db1 user.id ("hospital_admin") ("hospital") hospital.id
       ("register") none none ("pending_super_admin"))

/-- Body of `POST /api/hospitals/:hospitalId/doctors` plus the
authenticated hospital admin. -/
structure AddDoctorReq where
  actorId : Nat
  hospitalId : Nat
  name : String
  email : String
  phone : String
  medicalLicenseNumber : String
  deriving Repr, DecidableEq

/-- Embedding of `addDoctorByHospital` (hospital controller): the hospital must exist,
be `approved` and list the caller among its admins; duplicate checks on
doctor email/phone, medical license and user email/phone; then the doctor
is created with `status: approved` (auto-approval), pushed onto the
`associatedDoctors` roster of the hospital, and one `logApproval(approve,
Auto-approved-by-hospital-admin, null → approved)` entry is written. -/
def addDoctorByHospital (db : DB) (r : AddDoctorReq) :
    Except (Nat × String) DoctorRec × DB :=
  match db.hospitals.find? (fun h => h.id == r.hospitalId) with
  | none => (.error (404, "Hospital not found"), db)
  | some hospital =>
    if hospital.status ≠ "approved" then
      (.error (403, "Hospital must be approved before adding doctors"), db)
    else if !(hospital.admins.contains r.actorId) then
      (.error (403, "Only hospital admins can add doctors"), db)
    else if db.doctors.any (fun d => d.email == r.email || d.phone == r.phone) then
      (.error (400, "Doctor already exists with this email or phone"), db)
    else if db.doctors.any
        (fun d => d.medicalLicenseNumber == r.medicalLicenseNumber) then
      (.error (400, "Medical license number already exists"), db)
    else if db.users.any (fun u => u.email == r.email || u.phone == r.phone) then
      (.error (400, "Email or phone already registered as a user"), db)
    else
      let doctor : DoctorRec :=
        { id := db.nextId
          name := r.name
          email := r.email
          phone := r.phone
          medicalLicenseNumber := r.medicalLicenseNumber
          status := "approved"
          hospitalId := some r.hospitalId
          rejectionReason := none
          verifiedBy := none }
      let hospital' :=
        { hospital with associatedDoctors :=
            hospital.associatedDoctors ++ [doctor.id] }
      let db1 := { db with
        doctors := db.doctors ++ [doctor]
        hospitals := db.hospitals.map
          (fun h => if h.id == hospital.id then hospital' else h)
        nextId := db.nextId + 1 }
      (.ok doctor,
       logApproval db1 r.actorId ("hospital_admin") ("doctor") doctor.id
         ("approve") (some ("Auto-approved by hospital admin")) none ("approved"))

/-- Parameters of `POST /api/hospitals/:hospitalId/approve/doctor/:doctorId`
plus the authenticated hospital admin. -/
structure ApproveDoctorReq where
  actorId : Nat
  hospitalId : Nat
  doctorId : Nat
  deriving Repr, DecidableEq

/-- Embedding of `approveDoctorByHospital` (hospital controller): the hospital must
exist, be `approved` and list the caller among its admins; the doctor
must exist, belong to this hospital, and currently be in
`pending_hospital` or `pending_hospital_and_super_admin`; then the
status of the doctor becomes `approved` and one `logApproval(approve,
previousStatus → approved)` entry is written. -/
def approveDoctorByHospital (db : DB) (r : ApproveDoctorReq) :
    Except (Nat × String) DoctorRec × DB :=
  match db.hospitals.find? (fun h => h.id == r.hospitalId) with
  | none => (.error (404, "Hospital not found"), db)
  | some hospital =>
    if hospital.status ≠ "approved" then
      (.error (403, "Hospital must be approved to approve doctors"), db)
    else if !(hospital.admins.contains r.actorId) then
      (.error (403, "Only hospital admins can approve doctors"), db)
    else
      match db.doctors.find? (fun d => d.id == r.doctorId) with
      | none => (.error (404, "Doctor not found"), db)
      | some doctor =>
        if doctor.hospitalId ≠ some r.hospitalId then
          (.error (400, "Doctor does not belong to this hospital"), db)
        else if !(doctor.status == "pending_hospital" ||
            doctor.status == "pending_hospital_and_super_admin") then
          (.error (400, "Cannot approve doctor with status: " ++ doctor.status),
           db)
        else
          let doctor' := { doctor with status := "approved" }
          let db1 := { db with doctors := (db.doctors.map
            (fun d => if d.id == doctor.id then doctor' else d)) }
          (.ok doctor',
           logApproval db1 r.actorId ("hospital_admin") ("doctor") doctor.id
             ("approve") (some ("Approved by hospital admin"))
             (some doctor.status) ("approved"))

/-- Body of the super-admin `verifyDoctor` endpoint
(`admin.controller.js`). -/
structure VerifyDoctorReq where
  actorId : Nat
  doctorId : Nat
  action : String
  rejectionReason : Option String
  deriving Repr, DecidableEq

/-- Embedding of `verifyDoctor` (`admin.controller.js`): on an approve action the
status of the doctor becomes `active` (note: not `approved`) with
`verifiedBy` set; on a reject action it becomes `rejected` with the
given or default reason; any other action saves the doctor unchanged.
The function writes **no** `Approval` record: the admin controller never
calls `logApproval` (it does not even import the `Approval` model). -/
def verifyDoctor (db : DB) (r : VerifyDoctorReq) :
    Except (Nat × String) DoctorRec × DB :=
  match db.doctors.find? (fun d => d.id == r.doctorId) with
  | none => (.error (404, "Doctor not found"), db)
  | some doctor =>
    let doctor' :=
      if r.action == "approve" then
        { doctor with status := "active", verifiedBy := some r.actorId,
                      rejectionReason := none }
      else if r.action == "reject" then
        { doctor with status := "rejected",
                      rejectionReason :=
                        some (r.rejectionReason.getD ("Verification failed")),
                      verifiedBy := some r.actorId }
      else doctor
    (.ok doctor',
     { db with doctors := (db.doctors.map
         (fun d => if d.id == doctor.id then doctor' else d)) })

/-- Body of `PUT /api/hospitals/:hospitalId/profile`: a field is absent
from the JSON body exactly when its option is `none`
(`req.body[field] !== undefined` ↔ `isSome`). -/
structure HospitalUpdateReq where
  name : Option String
  address : Option String
  registrationNumber : Option String
  contactInfo : Option String
  departments : Option (List String)
  logo : Option String
  facilities : Option (List String)
  services : Option (List String)
  deriving Repr, DecidableEq

/-- Embedding of `updateHospitalProfile` (hospital controller), acting on the hospital
record `findById` returned.  When the hospital is `approved`: a request
mentioning any critical field (`name`, `address`, `registrationNumber`)
is refused with 403 before anything is written; otherwise only the five
non-critical fields present in the body are copied.  When not approved,
the fields in `allowedFields = [name, address, contactInfo, departments,
logo, facilities, services]` are copied — `registrationNumber` is not in
that list. -/
def updateHospitalProfile (h : HospitalRec) (r : HospitalUpdateReq) :
    Except (Nat × String) HospitalRec :=
  if h.status == "approved" then
    if r.name.isSome || r.address.isSome || r.registrationNumber.isSome then
      .error (403,
        "Critical fields (name, address, registrationNumber) are read-only when verification status is Active (approved). You can only update: logo, departments, contactInfo, facilities, services.")
    else
      .ok { h with contactInfo := r.contactInfo.getD h.contactInfo,
                   departments := r.departments.getD h.departments,
                   logo := r.logo.getD h.logo,
                   facilities := r.facilities.getD h.facilities,
                   services := r.services.getD h.services }
  else
    .ok { h with name := r.name.getD h.name,
                 address := r.address.getD h.address,
                 contactInfo := r.contactInfo.getD h.contactInfo,
                 departments := r.departments.getD h.departments,
                 logo := r.logo.getD h.logo,
                 facilities := r.facilities.getD h.facilities,
                 services := r.services.getD h.services }

/-! ## Helper lemmas: time formatting and slot-list structure -/

lemma pad2_len : ∀ x < 60, (pad2 x).length = 2 := by decide

lemma pad2_inj60 : ∀ a < 60, ∀ b < 60, pad2 a = pad2 b → a = b := by decide

lemma string_eq_of_data_eq {s t : String} (h : s.data = t.data) : s = t := by
  cases s; cases t; exact congrArg String.mk h

/-- Embedding of `formatTime` is injective on minute values below `24 * 60`: two
distinct in-day minute counts never render to the same `"HH:mm"` string. -/
lemma formatTime_inj {m1 m2 : Nat} (h1 : m1 < 1440) (h2 : m2 < 1440)
    (h : formatTime m1 = formatTime m2) : m1 = m2 := by
  have ha1 : m1 / 60 < 60 := by
    have h24 : m1 / 60 < 24 := Nat.div_lt_of_lt_mul (by omega)
    omega
  have ha2 : m2 / 60 < 60 := by
    have h24 : m2 / 60 < 24 := Nat.div_lt_of_lt_mul (by omega)
    omega
  have hb1 : m1 % 60 < 60 := Nat.mod_lt _ (by omega)
  have hb2 : m2 % 60 < 60 := Nat.mod_lt _ (by omega)
  have hdata := congrArg String.data h
  simp only [formatTime, String.data_append] at hdata
  have hlen : ((pad2 (m1 / 60)).data ++ ":".data).length =
      ((pad2 (m2 / 60)).data ++ ":".data).length := by
    have l1 : (pad2 (m1 / 60)).data.length = 2 := pad2_len _ ha1
    have l2 : (pad2 (m2 / 60)).data.length = 2 := pad2_len _ ha2
    simp [l1, l2]
  obtain ⟨hh, hm⟩ := List.append_inj hdata hlen
  have hheq : pad2 (m1 / 60) = pad2 (m2 / 60) := by
    have := List.append_inj hh ((pad2_len _ ha1).trans (pad2_len _ ha2).symm)
    exact string_eq_of_data_eq this.1
  have hmeq : pad2 (m1 % 60) = pad2 (m2 % 60) := string_eq_of_data_eq hm
  have e1 := pad2_inj60 _ ha1 _ ha2 hheq
  have e2 := pad2_inj60 _ hb1 _ hb2 hmeq
  omega

lemma pairwise_filterMap_of {α β : Type} {f : α → Option β}
    {R : β → β → Prop} {S : α → α → Prop}
    (h : ∀ a a', S a a' → ∀ b, f a = some b → ∀ b', f a' = some b' → R b b') :
    ∀ {l : List α}, l.Pairwise S → (l.filterMap f).Pairwise R := by
  intro l hl
  induction hl with
  | nil => simp
  | @cons a l' ha hl' ih =>
    rw [List.filterMap_cons]
    cases hfa : f a with
    | none => exact ih
    | some b =>
      refine List.Pairwise.cons ?_ ih
      intro b' hb'
      obtain ⟨a', ha'mem, hfa'⟩ := List.mem_filterMap.mp hb'
      exact h a a' (ha a' ha'mem) b hfa b' hfa'

lemma pairwise_and_mem {α : Type} {R : α → α → Prop} {P : α → Prop} :
    ∀ {l : List α}, l.Pairwise R → (∀ x ∈ l, P x) →
      l.Pairwise (fun a b => R a b ∧ P b) := by
  intro l hl hp
  induction hl with
  | nil => exact List.Pairwise.nil
  | @cons a l' ha hl' ih =>
    refine List.Pairwise.cons ?_ (ih (fun x hx => hp x (List.mem_cons_of_mem _ hx)))
    intro b hb
    exact ⟨ha b hb, hp b (List.mem_cons_of_mem _ hb)⟩

lemma serialStart_succ (s : SerialSettingsRec) (k : Nat) :
    s.serialStart (k + 1) = s.startMinutes + k * s.slotDuration := by
  simp [SerialSettingsRec.serialStart]

/-- Every slot the generation loop emits carries an even serial number
and the window computed from it. -/
lemma mem_availableSerialsList {s : SerialSettingsRec} {b : List String}
    {e : SerialSlot} (he : e ∈ availableSerialsList s b) :
    e.serialNumber % 2 = 0 ∧ e.time = formatTime (s.serialStart e.serialNumber) := by
  unfold availableSerialsList at he
  obtain ⟨k, _, hfk⟩ := List.mem_filterMap.mp he
  by_cases hp : (k + 1) % 2 = 0
  · by_cases hc : formatTime (s.serialStart (k + 1)) ∈ b
    · simp [hp, hc] at hfk
    · simp [hp, hc] at hfk
      rw [← hfk]
      exact ⟨hp, rfl⟩
  · simp [hp] at hfk

/-- When each slot lasts at least one minute (equivalently
`totalSerialsPerDay ≤ totalMinutes`), the generated slots have pairwise
distinct start-time strings. -/
lemma availableSerialsList_time_pairwise (s : SerialSettingsRec)
    (b : List String) (hv : ValidSettings s)
    (hd : s.totalSerialsPerDay ≤ s.totalMinutes) :
    (availableSerialsList s b).Pairwise (fun e1 e2 => e1.time ≠ e2.time) := by
  obtain ⟨hsh, hsm, heh, hem, hltr, hn⟩ := hv
  have hdur : 1 ≤ s.slotDuration :=
    (Nat.one_le_div_iff (by omega)).mpr hd
  unfold availableSerialsList
  apply pairwise_filterMap_of
    (S := fun k1 k2 => k1 < k2 ∧ k2 < s.totalSerialsPerDay)
  · intro k1 k2 hS e1 hf1 e2 hf2
    obtain ⟨hk12, hk2⟩ := hS
    have ht1 : e1.time = formatTime (s.serialStart (k1 + 1)) := by
      by_cases hp : (k1 + 1) % 2 = 0
      · by_cases hc : formatTime (s.serialStart (k1 + 1)) ∈ b
        · simp [hp, hc] at hf1
        · simp [hp, hc] at hf1; rw [← hf1]
      · simp [hp] at hf1
    have ht2 : e2.time = formatTime (s.serialStart (k2 + 1)) := by
      by_cases hp : (k2 + 1) % 2 = 0
      · by_cases hc : formatTime (s.serialStart (k2 + 1)) ∈ b
        · simp [hp, hc] at hf2
        · simp [hp, hc] at hf2; rw [← hf2]
      · simp [hp] at hf2
    rw [ht1, ht2]
    intro heq
    have hm1 : k1 * s.slotDuration < k2 * s.slotDuration :=
      (Nat.mul_lt_mul_right (by omega)).mpr hk12
    have hm2 : k2 * s.slotDuration < s.totalSerialsPerDay * s.slotDuration :=
      (Nat.mul_lt_mul_right (by omega)).mpr hk2
    have hm3 : s.totalSerialsPerDay * s.slotDuration ≤ s.totalMinutes := by
      have := Nat.div_mul_le_self s.totalMinutes s.totalSerialsPerDay
      calc s.totalSerialsPerDay * s.slotDuration
          = s.totalMinutes / s.totalSerialsPerDay * s.totalSerialsPerDay := by
            rw [Nat.mul_comm]; rfl
        _ ≤ s.totalMinutes := this
    have htm : s.totalMinutes = s.endMinutes - s.startMinutes := rfl
    have hsm' : s.startMinutes = s.startHour * 60 + s.startMin := rfl
    have hem' : s.endMinutes = s.endHour * 60 + s.endMin := rfl
    rw [serialStart_succ, serialStart_succ] at heq
    have hb1 : s.startMinutes + k1 * s.slotDuration < 1440 := by omega
    have hb2 : s.startMinutes + k2 * s.slotDuration < 1440 := by omega
    have := formatTime_inj hb1 hb2 heq
    omega
  · exact pairwise_and_mem (List.pairwise_lt_range _)
      (fun x hx => List.mem_range.mp hx)

/-! ## Helper lemmas: the booking transaction -/

lemma bookSerialCommit_doctors (db : DB) (r : BookReq) (p : BookPlan) :
    ((bookSerialCommit db r p).2).doctors = db.doctors := by
  unfold bookSerialCommit
  cases db.chambers.find? (fun c => c.doctorId == r.doctorId && c.isActive) <;> rfl

lemma bookSerialCommit_hospitals (db : DB) (r : BookReq) (p : BookPlan) :
    ((bookSerialCommit db r p).2).hospitals = db.hospitals := by
  unfold bookSerialCommit
  cases db.chambers.find? (fun c => c.doctorId == r.doctorId && c.isActive) <;> rfl

lemma bookSerialCommit_serialSettings (db : DB) (r : BookReq) (p : BookPlan) :
    ((bookSerialCommit db r p).2).serialSettings = db.serialSettings := by
  unfold bookSerialCommit
  cases db.chambers.find? (fun c => c.doctorId == r.doctorId && c.isActive) <;> rfl

lemma bookSerialCommit_appointments (db : DB) (r : BookReq) (p : BookPlan) :
    ((bookSerialCommit db r p).2).appointments =
      db.appointments ++ [(bookSerialCommit db r p).1] := by
  unfold bookSerialCommit
  cases db.chambers.find? (fun c => c.doctorId == r.doctorId && c.isActive) <;> rfl

lemma bookSerialCommit_fst (db : DB) (r : BookReq) (p : BookPlan) :
    ((bookSerialCommit db r p).1).doctorId = r.doctorId ∧
    ((bookSerialCommit db r p).1).appointmentDate = r.day ∧
    ((bookSerialCommit db r p).1).status = "pending" ∧
    ((bookSerialCommit db r p).1).startTime = p.startTime := by
  unfold bookSerialCommit
  cases db.chambers.find? (fun c => c.doctorId == r.doctorId && c.isActive) <;>
    exact ⟨rfl, rfl, rfl, rfl⟩

/-- The doctor/hospital/settings resolution reads only the three
collections it queries. -/
lemma resolveDoctorSettings_congr (db db' : DB) (doctorId : Nat)
    (h1 : db'.doctors = db.doctors) (h2 : db'.hospitals = db.hospitals)
    (h3 : db'.serialSettings = db.serialSettings) :
    resolveDoctorSettings db' doctorId = resolveDoctorSettings db doctorId := by
  unfold resolveDoctorSettings lookupSerialSettings
  rw [h1, h2, h3]

/-- An error outcome of the read phase is the whole response: the store
is returned unchanged. -/
lemma bookSerial_of_check_err {db : DB} {r : BookReq} {e : Nat × String}
    (h : bookSerialCheck db r = .error e) : bookSerial db r = (.error e, db) := by
  unfold bookSerial
  rw [h]

lemma bookSerialCheck_lt_one {db : DB} {r : BookReq} (h : r.serialNumber < 1) :
    bookSerialCheck db r = .error (400, "Validation failed") := by
  unfold bookSerialCheck
  rw [if_pos h]

lemma bookSerialCheck_odd {db : DB} {r : BookReq} (h1 : ¬ r.serialNumber < 1)
    (h2 : r.serialNumber.emod 2 ≠ 0) :
    bookSerialCheck db r =
      .error (400, "Only even-numbered serials can be booked online") := by
  unfold bookSerialCheck
  rw [if_neg h1, if_pos h2]

/-- If one read phase succeeded with plan `p` and the store now holds a
pending appointment for the same doctor, day and start time (the three
collections the resolution reads being unchanged), the next read phase
hits the `existingAppointment` probe and reports the serial as already
booked. -/
lemma bookSerialCheck_conflict (db db' : DB) (r : BookReq) (p : BookPlan)
    (h : bookSerialCheck db r = .ok p)
    (hdoc : db'.doctors = db.doctors) (hhos : db'.hospitals = db.hospitals)
    (hser : db'.serialSettings = db.serialSettings)
    (hconf : ∃ a2 ∈ db'.appointments, a2.doctorId = r.doctorId ∧
      a2.appointmentDate = r.day ∧ a2.status = "pending" ∧
      a2.startTime = p.startTime) :
    bookSerialCheck db' r = .error (400, "This serial is already booked") := by
  unfold bookSerialCheck at h ⊢
  rw [resolveDoctorSettings_congr db db' r.doctorId hdoc hhos hser]
  by_cases hlt : r.serialNumber < 1
  · rw [if_pos hlt] at h; exact absurd h (by simp)
  rw [if_neg hlt] at h ⊢
  by_cases hodd : r.serialNumber.emod 2 ≠ 0
  · rw [if_pos hodd] at h; exact absurd h (by simp)
  rw [if_neg hodd] at h ⊢
  cases hres : resolveDoctorSettings db r.doctorId with
  | error e => rw [hres] at h; exact absurd h (by simp)
  | ok trip =>
    obtain ⟨d, hos, s⟩ := trip
    rw [hres] at h
    have h2 : bookSerialGates db r d hos s = Except.ok p := h
    clear h
    show bookSerialGates db' r d hos s = _
    unfold bookSerialGates at h2 ⊢
    by_cases hday :
        (!s.availableDays.isEmpty && !(s.availableDays.contains r.dayOfWeek)) = true
    · rw [if_pos hday] at h2; exact absurd h2 (by simp)
    rw [if_neg hday] at h2 ⊢
    by_cases hrange :
        (r.serialNumber < 1 ∨ (s.totalSerialsPerDay : Int) < r.serialNumber)
    · rw [if_pos hrange] at h2; exact absurd h2 (by simp)
    rw [if_neg hrange] at h2 ⊢
    by_cases hb : ((nonTerminalBooked db r.doctorId r.day).any
        (fun a => a.startTime ==
          formatTime (s.serialStart r.serialNumber.toNat))) = true
    · rw [if_pos hb] at h2; exact absurd h2 (by simp)
    rw [if_neg hb] at h2
    have hps : p.startTime = formatTime (s.serialStart r.serialNumber.toNat) := by
      injection h2 with h'
      rw [← h']
    rw [if_pos ?_]
    obtain ⟨a2, ha2, hf1, hf2, hf3, hf4⟩ := hconf
    apply List.any_eq_true.mpr
    refine ⟨a2, ?_, ?_⟩
    · unfold nonTerminalBooked
      apply List.mem_filter.mpr
      refine ⟨ha2, ?_⟩
      simp [hf1, hf2, hf3]
    · simp [hf4, hps]

/-- A successful booking leaves a pending appointment carrying the plan
of its read phase in the returned store. -/
lemma bookSerial_ok_inversion {db : DB} {r : BookReq} {a : AppointmentRec}
    {db' : DB} (h : bookSerial db r = (.ok a, db')) :
    ∃ p, bookSerialCheck db r = .ok p ∧
      a = (bookSerialCommit db r p).1 ∧ db' = (bookSerialCommit db r p).2 := by
  unfold bookSerial at h
  cases hc : bookSerialCheck db r with
  | error e => rw [hc] at h; exact absurd h (by simp)
  | ok p =>
    rw [hc] at h
    rw [Prod.mk.injEq] at h
    obtain ⟨hok, hdb⟩ := h
    injection hok with ha
    exact ⟨p, rfl, ha.symm, hdb.symm⟩

/-! ## Concrete fixtures -/

/-- An approved independent doctor. -/
def sampleDoctor : DoctorRec :=
  ⟨1, "Dr. Rahman", "rahman@example.com", "01711111111", "LIC-1",
   "approved", none, none, none⟩

/-- Active individual serial settings: 20 serials per day, 09:00–17:00,
no weekday restriction. -/
def sampleSettings : SerialSettingsRec :=
  ⟨7, 1, none, 20, 9, 0, 17, 0, 500, true, []⟩

/-- A store holding only `sampleDoctor` and `sampleSettings`, with no
appointments yet. -/
def sampleDB : DB := ⟨[], [sampleDoctor], [], [sampleSettings], [], [], [], 100⟩

/-- The availability query of the C2 scenario. -/
def sampleAvailReq : AvailReq := ⟨1, 0, 1⟩

/-- The ten even-serial windows the code produces for the C2 scenario:
slot duration `Math.floor(480 / 20) = 24` minutes, serial `i` starting at
`09:00 + (i - 1) * 24min`. -/
def sampleSlots : List SerialSlot :=
  [⟨2, "09:24", "09:48", true⟩, ⟨4, "10:12", "10:36", true⟩,
   ⟨6, "11:00", "11:24", true⟩, ⟨8, "11:48", "12:12", true⟩,
   ⟨10, "12:36", "13:00", true⟩, ⟨12, "13:24", "13:48", true⟩,
   ⟨14, "14:12", "14:36", true⟩, ⟨16, "15:00", "15:24", true⟩,
   ⟨18, "15:48", "16:12", true⟩, ⟨20, "16:36", "17:00", true⟩]

/-! ## C2 — the 20-serial / 09:00–17:00 scenario -/

/-- C2 (counterexample): in exactly the scenario of the claim
(`totalSerialsPerDay = 20`, range 09:00–17:00, no bookings, weekday
allowed), the entry for serial 2 has start `"09:24"` and end `"09:48"`,
not the claimed 09:00–09:24 window: the code computes serial `i` at
`startMinutes + (i - 1) * slotDuration`, so the 09:00–09:24 window
belongs to the walk-in serial 1. -/
theorem getAvailableSerials_sample_serial2_window :
    getAvailableSerials sampleDB sampleAvailReq = .ok ⟨sampleSlots, 20⟩ ∧
    sampleSlots.head? = some ⟨2, "09:24", "09:48", true⟩ ∧
    (∀ e ∈ sampleSlots, e.serialNumber = 2 → e.time ≠ "09:00") := by
  refine ⟨by decide, by decide, by decide⟩

/-- C2 (amended): the scenario returns exactly the even serials
2, 4, …, 20 — ten entries — and serial 2 occupies 09:24–09:48. -/
theorem getAvailableSerials_sample_exact :
    getAvailableSerials sampleDB sampleAvailReq = .ok ⟨sampleSlots, 20⟩ ∧
    sampleSlots.map (fun e => e.serialNumber) =
      [2, 4, 6, 8, 10, 12, 14, 16, 18, 20] ∧
    sampleSlots.length = 10 ∧
    (∀ e ∈ sampleSlots, e.serialNumber = 2 →
      e.time = "09:24" ∧ e.endTime = "09:48") := by
  refine ⟨by decide, by decide, by decide, by decide⟩

/-! ## C7 — distinct start times -/

/-- Valid settings under which the slot duration floors to zero: four
serials inside a three-minute range (`Math.floor(3 / 4) = 0`). -/
def tinySettings : SerialSettingsRec :=
  ⟨8, 1, none, 4, 9, 0, 9, 3, 500, true, []⟩

/-- A store identical to `sampleDB` except that the doctor is governed
by `tinySettings`. -/
def tinyDB : DB := ⟨[], [sampleDoctor], [], [tinySettings], [], [], [], 100⟩

/-- C7 (counterexample): with schema-valid settings (4 serials,
09:00–09:03) the slot duration floors to 0, and the calculator returns
two windows — serials 2 and 4 — with the identical start time `"09:00"`. -/
theorem getAvailableSerials_duplicate_start_times :
    ValidSettings tinySettings ∧
    getAvailableSerials tinyDB ⟨1, 0, 1⟩ =
      .ok ⟨[⟨2, "09:00", "09:00", true⟩, ⟨4, "09:00", "09:00", true⟩], 4⟩ := by
  refine ⟨by decide, by decide⟩

/-- A successful availability response presupposes a resolved doctor and
settings row. -/
lemma getAvailableSerials_ok_resolve {db : DB} {r : AvailReq} {out : AvailOut}
    (h : getAvailableSerials db r = .ok out) :
    ∃ d hos s, resolveDoctorSettings db r.doctorId = .ok (d, hos, s) := by
  unfold getAvailableSerials at h
  cases hres : resolveDoctorSettings db r.doctorId with
  | error e => rw [hres] at h; exact absurd h (by simp)
  | ok trip =>
    obtain ⟨d, hos, s⟩ := trip
    exact ⟨d, hos, s, rfl⟩

/-- A successful availability response is either the day-unavailable
empty list or the generated slot list. -/
lemma getAvailableSerials_ok_cases {db : DB} {r : AvailReq} {d : DoctorRec}
    {hos : Option HospitalRec} {s : SerialSettingsRec} {out : AvailOut}
    (hres : resolveDoctorSettings db r.doctorId = .ok (d, hos, s))
    (hout : getAvailableSerials db r = .ok out) :
    out.availableSerials = [] ∨
    out.availableSerials = availableSerialsList s
      ((nonTerminalBooked db r.doctorId r.day).map (fun a => a.startTime)) := by
  unfold getAvailableSerials at hout
  rw [hres] at hout
  have hout2 : (if (!s.availableDays.isEmpty &&
        !(s.availableDays.contains r.dayOfWeek)) = true
      then Except.ok (AvailOut.mk [] s.totalSerialsPerDay)
      else Except.ok (AvailOut.mk (availableSerialsList s
        ((nonTerminalBooked db r.doctorId r.day).map (fun a => a.startTime)))
        s.totalSerialsPerDay)) = Except.ok out := hout
  by_cases hday : (!s.availableDays.isEmpty &&
      !(s.availableDays.contains r.dayOfWeek)) = true
  · rw [if_pos hday] at hout2
    injection hout2 with h'
    left; rw [← h']
  · rw [if_neg hday] at hout2
    injection hout2 with h'
    right; rw [← h']

/-! ## C1 — even serials only -/

/-- C1: the availability calculator only ever returns even-numbered
serials, and the booking path rejects every odd `serialNumber` with a
400 response, leaving the store untouched (so serial 1 is never bookable
online). -/
theorem serials_even_only :
    (∀ (db : DB) (r : AvailReq) (out : AvailOut),
      getAvailableSerials db r = .ok out →
      ∀ e ∈ out.availableSerials, e.serialNumber % 2 = 0) ∧
    (∀ (db : DB) (r : BookReq), r.serialNumber.emod 2 ≠ 0 →
      ∃ m, bookSerial db r = (.error (400, m), db)) := by
  constructor
  · intro db r out hout e he
    obtain ⟨d, hos, s, hres⟩ := getAvailableSerials_ok_resolve hout
    cases getAvailableSerials_ok_cases hres hout with
    | inl hempty => rw [hempty] at he; exact absurd he (by simp)
    | inr hgen =>
      rw [hgen] at he
      exact (mem_availableSerialsList he).1
  · intro db r hodd
    by_cases hlt : r.serialNumber < 1
    · exact ⟨"Validation failed",
        bookSerial_of_check_err (bookSerialCheck_lt_one hlt)⟩
    · exact ⟨"Only even-numbered serials can be booked online",
        bookSerial_of_check_err (bookSerialCheck_odd hlt hodd)⟩

/-- C1 (witness): the sample scenario instantiates both halves — every
returned serial in the sample output is even, and booking serial 3
fails with a 400 while leaving the store unchanged. -/
theorem serials_even_only_witness :
    (∀ e ∈ sampleSlots, e.serialNumber % 2 = 0) ∧
    ∃ m, bookSerial sampleDB ⟨10, 1, 3, 0, 1⟩ =
      (.error (400, m), sampleDB) :=
  ⟨fun e he => (serials_even_only.1 sampleDB sampleAvailReq ⟨sampleSlots, 20⟩
      (by decide) e he),
   serials_even_only.2 sampleDB ⟨10, 1, 3, 0, 1⟩ (by decide)⟩

/-! ## C7 — amended general theorem -/

/-- C7 (amended): whenever the governing settings are schema-valid and
additionally give each serial a window of at least one minute
(`totalSerialsPerDay ≤ totalMinutes` — the source floors the division,
so without this the duplicate start times of the counterexample occur),
the calculator never returns two windows with the same start time. -/
theorem getAvailableSerials_no_duplicate_starts (db : DB) (r : AvailReq)
    (d : DoctorRec) (hos : Option HospitalRec) (s : SerialSettingsRec)
    (out : AvailOut)
    (hres : resolveDoctorSettings db r.doctorId = .ok (d, hos, s))
    (hv : ValidSettings s) (hd : s.totalSerialsPerDay ≤ s.totalMinutes)
    (hout : getAvailableSerials db r = .ok out) :
    out.availableSerials.Pairwise (fun e1 e2 => e1.time ≠ e2.time) := by
  cases getAvailableSerials_ok_cases hres hout with
  | inl hempty => rw [hempty]; exact List.Pairwise.nil
  | inr hgen =>
    rw [hgen]
    exact availableSerialsList_time_pairwise s _ hv hd

/-- C7 (witness): the sample scenario — valid settings, 20 one-day
serials across 480 minutes — yields pairwise distinct start times. -/
theorem getAvailableSerials_no_duplicate_starts_witness :
    ValidSettings sampleSettings ∧
    sampleSettings.totalSerialsPerDay ≤ sampleSettings.totalMinutes ∧
    sampleSlots.Pairwise (fun e1 e2 => e1.time ≠ e2.time) :=
  ⟨by decide, by decide,
   getAvailableSerials_no_duplicate_starts sampleDB sampleAvailReq
     sampleDoctor none sampleSettings ⟨sampleSlots, 20⟩ (by decide)
     (by decide) (by decide) (by decide)⟩

/-! ## C5 — sequential double booking -/

/-- C5: if a booking for `(doctor, date, serialNumber)` succeeds, an
immediately following identical request fails with the slot-unavailable
response `This serial is already booked` and leaves the store — hence
the appointment collection — unchanged. -/
theorem bookSerial_double_booking_rejected (db : DB) (r : BookReq)
    (a : AppointmentRec) (db' : DB)
    (h : bookSerial db r = (.ok a, db')) :
    bookSerial db' r = (.error (400, "This serial is already booked"), db') := by
  obtain ⟨p, hc, ha, hdb⟩ := bookSerial_ok_inversion h
  obtain ⟨hf1, hf2, hf3, hf4⟩ := bookSerialCommit_fst db r p
  have hconf : ∃ a2 ∈ db'.appointments, a2.doctorId = r.doctorId ∧
      a2.appointmentDate = r.day ∧ a2.status = "pending" ∧
      a2.startTime = p.startTime := by
    refine ⟨(bookSerialCommit db r p).1, ?_, hf1, hf2, hf3, hf4⟩
    rw [hdb, bookSerialCommit_appointments]
    exact List.mem_append_right _ (List.mem_singleton_self _)
  have hcheck2 := bookSerialCheck_conflict db db' r p hc
    (by rw [hdb, bookSerialCommit_doctors])
    (by rw [hdb, bookSerialCommit_hospitals])
    (by rw [hdb, bookSerialCommit_serialSettings])
    hconf
  exact bookSerial_of_check_err hcheck2

/-- The booking request of the double-booking scenario: serial 4 for the
sample doctor. -/
def sampleBookReq : BookReq := ⟨10, 1, 4, 0, 1⟩

/-- The appointment the first sample booking creates: no active chamber
exists, so a default one (id 100) is created first, and the appointment
takes the next id. -/
def sampleBookedAppt : AppointmentRec :=
  ⟨101, 10, 1, 100, 0, "10:12", "10:36", 24, "SR-101", "new", 500,
   "pending", "pending", none, none, "Serial #4"⟩

/-- The store after the first sample booking. -/
def sampleDBAfterBook : DB := (bookSerial sampleDB sampleBookReq).2

/-- C5 (witness): booking serial 4 twice in a row — the first call
creates the pending appointment, the second is rejected. -/
theorem bookSerial_double_booking_rejected_witness :
    bookSerial sampleDB sampleBookReq = (.ok sampleBookedAppt, sampleDBAfterBook) ∧
    bookSerial sampleDBAfterBook sampleBookReq =
      (.error (400, "This serial is already booked"), sampleDBAfterBook) :=
  ⟨by decide,
   bookSerial_double_booking_rejected sampleDB sampleBookReq
     sampleBookedAppt sampleDBAfterBook (by decide)⟩

/-! ## C6 — invalid serial numbers -/

lemma bookSerialCheck_eq_gates {db : DB} {r : BookReq} {d : DoctorRec}
    {hos : Option HospitalRec} {s : SerialSettingsRec}
    (h1 : ¬ r.serialNumber < 1) (h2 : ¬ r.serialNumber.emod 2 ≠ 0)
    (hres : resolveDoctorSettings db r.doctorId = .ok (d, hos, s)) :
    bookSerialCheck db r = bookSerialGates db r d hos s := by
  unfold bookSerialCheck
  rw [if_neg h1, if_neg h2, hres]

lemma bookSerialGates_range_err (db : DB) (r : BookReq) (d : DoctorRec)
    (hos : Option HospitalRec) (s : SerialSettingsRec)
    (hrange : r.serialNumber < 1 ∨ (s.totalSerialsPerDay : Int) < r.serialNumber) :
    ∃ m, bookSerialGates db r d hos s = .error (400, m) := by
  unfold bookSerialGates
  by_cases hday : (!s.availableDays.isEmpty &&
      !(s.availableDays.contains r.dayOfWeek)) = true
  · rw [if_pos hday]; exact ⟨_, rfl⟩
  · rw [if_neg hday, if_pos hrange]; exact ⟨_, rfl⟩

/-- C6: a `bookSerial` request whose serial number is odd (or rejected
by the route validator as below 1) fails with a 400 response before any
write; and when the doctor and governing settings resolve, a serial
number outside `[1, totalSerialsPerDay]` likewise fails with a 400
response — in both cases no appointment is created (the store is
returned unchanged). -/
theorem bookSerial_rejects_invalid_serials (db : DB) (r : BookReq) :
    ((r.serialNumber.emod 2 ≠ 0 ∨ r.serialNumber < 1) →
      ∃ m, bookSerial db r = (.error (400, m), db)) ∧
    (∀ (d : DoctorRec) (hos : Option HospitalRec) (s : SerialSettingsRec),
      resolveDoctorSettings db r.doctorId = .ok (d, hos, s) →
      (r.serialNumber < 1 ∨ (s.totalSerialsPerDay : Int) < r.serialNumber) →
      ∃ m, bookSerial db r = (.error (400, m), db)) := by
  constructor
  · intro hcase
    by_cases hlt : r.serialNumber < 1
    · exact ⟨_, bookSerial_of_check_err (bookSerialCheck_lt_one hlt)⟩
    · have hodd : r.serialNumber.emod 2 ≠ 0 := by
        cases hcase with
        | inl h => exact h
        | inr h => exact absurd h hlt
      exact ⟨_, bookSerial_of_check_err (bookSerialCheck_odd hlt hodd)⟩
  · intro d hos s hres hrange
    by_cases hlt : r.serialNumber < 1
    · exact ⟨_, bookSerial_of_check_err (bookSerialCheck_lt_one hlt)⟩
    by_cases hodd : r.serialNumber.emod 2 ≠ 0
    · exact ⟨_, bookSerial_of_check_err (bookSerialCheck_odd hlt hodd)⟩
    obtain ⟨m, hm⟩ := bookSerialGates_range_err db r d hos s hrange
    exact ⟨m, bookSerial_of_check_err
      ((bookSerialCheck_eq_gates hlt hodd hres).trans hm)⟩

/-- C6 (witness): serial 3 (odd) and serial 22 (beyond the 20 configured
serials) are both rejected with a 400 on the sample store. -/
theorem bookSerial_rejects_invalid_serials_witness :
    (∃ m, bookSerial sampleDB ⟨10, 1, 3, 0, 1⟩ = (.error (400, m), sampleDB)) ∧
    (∃ m, bookSerial sampleDB ⟨10, 1, 22, 0, 1⟩ = (.error (400, m), sampleDB)) :=
  ⟨(bookSerial_rejects_invalid_serials sampleDB ⟨10, 1, 3, 0, 1⟩).1
     (Or.inl (by decide)),
   (bookSerial_rejects_invalid_serials sampleDB ⟨10, 1, 22, 0, 1⟩).2
     sampleDoctor none sampleSettings (by decide) (by decide)⟩

/-! ## C3 — terminal appointment states -/

/-- An appointment the provider has rejected (a terminal state per the
specification). -/
def rejectedAppt : AppointmentRec :=
  ⟨11, 10, 1, 100, 0, "09:24", "09:48", 24, "SR-11", "new", 500,
   "rejected", "pending", none, none, "Serial #2"⟩

/-- A completed appointment (a terminal state per the specification). -/
def completedAppt : AppointmentRec :=
  ⟨12, 10, 1, 100, 0, "10:12", "10:36", 24, "SR-12", "new", 500,
   "completed", "pending", none, none, "Serial #4"⟩

/-- A store holding the two terminal appointments. -/
def lifecycleDB : DB :=
  ⟨[], [sampleDoctor], [], [sampleSettings], [rejectedAppt, completedAppt],
   [], [], 200⟩

/-- C3 (failure demonstration): the code does not seal terminal states.
`cancelAppointment` checks only `[cancelled, completed, no_show]`,
so the patient cancels a **rejected** appointment and its status moves
`rejected → cancelled`; and `updateAppointmentStatus` assigns the
requested status without consulting the previous one, moving a
**completed** appointment back to `accepted`. -/
theorem terminal_states_not_sealed :
    rejectedAppt.status = "rejected" ∧
    (cancelAppointment lifecycleDB ⟨10, 11, some ("changed my mind")⟩).1 =
      .ok { rejectedAppt with
            status := "cancelled",
            cancelledBy := some ("patient"),
            cancellationReason := some ("changed my mind") } ∧
    ((cancelAppointment lifecycleDB ⟨10, 11, some ("changed my mind")⟩).2
        |>.appointments.map (fun a => a.status)) =
      ["cancelled", "completed"] ∧
    completedAppt.status = "completed" ∧
    (updateAppointmentStatus lifecycleDB ⟨1, 12, "accepted", none⟩).1 =
      .ok { completedAppt with status := "accepted" } ∧
    ((updateAppointmentStatus lifecycleDB ⟨1, 12, "accepted", none⟩).2
        |>.appointments.map (fun a => a.status)) =
      ["rejected", "accepted"] := by
  refine ⟨by decide, by decide, by decide, by decide, by decide, by decide⟩

/-! ## C4 — the approval audit trail -/

/-- A doctor awaiting super-admin verification. -/
def pendingSADoctor : DoctorRec :=
  ⟨4, "Dr. P", "p@example.com", "01700000004", "LIC-4",
   "pending_super_admin", none, none, none⟩

/-- A store holding only that doctor, with an empty audit trail. -/
def verifyDB : DB := ⟨[], [pendingSADoctor], [], [], [], [], [], 70⟩

/-- C4 (counterexample): the super-admin `verifyDoctor` endpoint changes
the doctor status (`pending_super_admin → active` — note: not
`approved`) yet appends **no** `Approval` record: the admin controller
never calls `logApproval`. -/
theorem verifyDoctor_writes_no_audit :
    pendingSADoctor.status = "pending_super_admin" ∧
    (verifyDoctor verifyDB ⟨99, 4, "approve", none⟩).1 =
      .ok { pendingSADoctor with
            status := "active",
            verifiedBy := some 99,
            rejectionReason := none } ∧
    ((verifyDoctor verifyDB ⟨99, 4, "approve", none⟩).2).doctors.map
      (fun d => d.status) = ["active"] ∧
    ((verifyDoctor verifyDB ⟨99, 4, "approve", none⟩).2).approvals = [] ∧
    verifyDB.approvals = [] := by
  refine ⟨by decide, by decide, by decide, by decide, by decide⟩

/-- C4 (amended): the hospital-side lifecycle operations write exactly
one audit entry each, with `previousStatus`/`newStatus` captured
verbatim (`null` as previous status for the two creation paths); the
super-admin `verifyDoctor` endpoint writes none at all. -/
theorem approval_audit_trail :
    (∀ (db : DB) (r : RegisterHospitalReq) (h : HospitalRec) (db' : DB),
      registerHospital db r = (.ok h, db') →
      ∃ e, db'.approvals = db.approvals ++ [e] ∧ e.action = "register" ∧
        e.previousStatus = none ∧ e.newStatus = h.status ∧
        h.status = "pending_super_admin") ∧
    (∀ (db : DB) (r : AddDoctorReq) (d : DoctorRec) (db' : DB),
      addDoctorByHospital db r = (.ok d, db') →
      ∃ e, db'.approvals = db.approvals ++ [e] ∧ e.action = "approve" ∧
        e.previousStatus = none ∧ e.newStatus = "approved" ∧
        d.status = "approved") ∧
    (∀ (db : DB) (r : ApproveDoctorReq) (d : DoctorRec) (db' : DB)
      (d0 : DoctorRec),
      approveDoctorByHospital db r = (.ok d, db') →
      db.doctors.find? (fun x => x.id == r.doctorId) = some d0 →
      ∃ e, db'.approvals = db.approvals ++ [e] ∧ e.action = "approve" ∧
        e.previousStatus = some d0.status ∧ e.newStatus = "approved" ∧
        d.status = "approved") ∧
    (∀ (db : DB) (r : VerifyDoctorReq),
      ((verifyDoctor db r).2).approvals = db.approvals) := by
  refine ⟨?_, ?_, ?_, ?_⟩
  · intro db r h db' hOk
    unfold registerHospital at hOk
    by_cases h1 : (db.users.any fun u => u.email == r.email || u.phone == r.phone) = true
    · rw [if_pos h1] at hOk; exact absurd hOk (by simp)
    rw [if_neg h1] at hOk
    by_cases h2 : (db.hospitals.any
        fun x => x.registrationNumber == r.registrationNumber) = true
    · rw [if_pos h2] at hOk; exact absurd hOk (by simp)
    rw [if_neg h2] at hOk
    rw [Prod.mk.injEq] at hOk
    obtain ⟨hh, hdb⟩ := hOk
    injection hh with hh
    refine ⟨⟨db.nextId, "hospital_admin", "hospital", db.nextId + 1,
      "register", none, none, "pending_super_admin"⟩, ?_, rfl, rfl, ?_, ?_⟩
    · rw [← hdb]; rfl
    · rw [← hh]
    · rw [← hh]
  · intro db r d db' hOk
    unfold addDoctorByHospital at hOk
    split at hOk
    · exact absurd hOk (by simp)
    split at hOk
    · exact absurd hOk (by simp)
    split at hOk
    · exact absurd hOk (by simp)
    split at hOk
    · exact absurd hOk (by simp)
    split at hOk
    · exact absurd hOk (by simp)
    split at hOk
    · exact absurd hOk (by simp)
    rw [Prod.mk.injEq] at hOk
    obtain ⟨hh, hdb⟩ := hOk
    injection hh with hh
    refine ⟨⟨r.actorId, "hospital_admin", "doctor", db.nextId, "approve",
      some ("Auto-approved by hospital admin"), none, "approved"⟩,
      ?_, rfl, rfl, rfl, ?_⟩
    · rw [← hdb]; rfl
    · rw [← hh]
  · intro db r d db' d0 hOk hfind
    unfold approveDoctorByHospital at hOk
    split at hOk
    · exact absurd hOk (by simp)
    split at hOk
    · exact absurd hOk (by simp)
    split at hOk
    · exact absurd hOk (by simp)
    rename_i hospital _ _ _
    split at hOk
    · exact absurd hOk (by simp)
    rename_i doctor hfind2
    split at hOk
    · exact absurd hOk (by simp)
    split at hOk
    · exact absurd hOk (by simp)
    rw [Prod.mk.injEq] at hOk
    obtain ⟨hh, hdb⟩ := hOk
    injection hh with hh
    have hd0 : doctor = d0 := by
      rw [hfind2] at hfind
      injection hfind
    refine ⟨⟨r.actorId, "hospital_admin", "doctor", doctor.id, "approve",
      some ("Approved by hospital admin"), some doctor.status, "approved"⟩,
      ?_, rfl, ?_, rfl, ?_⟩
    · rw [← hdb]; rfl
    · rw [hd0]
    · rw [← hh]
  · intro db r
    unfold verifyDoctor
    split <;> rfl

/-- An empty store for the registration scenario. -/
def emptyDB : DB := ⟨[], [], [], [], [], [], [], 0⟩

/-- A hospital registration request. -/
def regReq : RegisterHospitalReq :=
  ⟨"City Hospital", "admin@city.example", "01800000000", "password8",
   "12 Lake Road", "REG-9", ["doc.pdf"]⟩

/-- The store after registering `regReq` on `emptyDB`. -/
def dbAfterReg : DB := (registerHospital emptyDB regReq).2

/-- The hospital record that registration creates. -/
def cityHospital : HospitalRec :=
  ⟨1, 0, "City Hospital", "12 Lake Road", "REG-9", "", [], "", [], [],
   "pending_super_admin", [0], [], none, none⟩

/-- An approved hospital administered by user 5. -/
def metroHospital : HospitalRec :=
  ⟨2, 5, "Metro Hospital", "1 Main Avenue", "REG-2", "", [], "", [], [],
   "approved", [5], [], none, none⟩

/-- A store holding the approved hospital. -/
def metroDB : DB := ⟨[], [], [metroHospital], [], [], [], [], 50⟩

/-- A direct-add request by the approved hospital admin. -/
def addDocReq : AddDoctorReq :=
  ⟨5, 2, "Dr. New", "new@example.com", "01900000000", "LIC-9"⟩

/-- The store after the direct add. -/
def dbAfterAdd : DB := (addDoctorByHospital metroDB addDocReq).2

/-- A doctor registered under the approved hospital, awaiting hospital
approval. -/
def pendingHDoctor : DoctorRec :=
  ⟨3, "Dr. Wait", "wait@example.com", "01700000009", "LIC-3",
   "pending_hospital", some 2, none, none⟩

/-- A store with the approved hospital and the doctor pending on it. -/
def pendingHDB : DB :=
  ⟨[], [pendingHDoctor], [metroHospital], [], [], [], [], 60⟩

/-- The store after hospital-side approval of `pendingHDoctor`. -/
def dbAfterApprove : DB :=
  (approveDoctorByHospital pendingHDB ⟨5, 2, 3⟩).2

/-- C4 (witness): each audited path applied at a concrete store — the
registration, direct-add and hospital-approval entries, and the absence
of any entry after `verifyDoctor`. -/
theorem approval_audit_trail_witness :
    (∃ e, dbAfterReg.approvals = emptyDB.approvals ++ [e] ∧
      e.action = "register" ∧ e.previousStatus = none ∧
      e.newStatus = cityHospital.status ∧
      cityHospital.status = "pending_super_admin") ∧
    (∃ e, dbAfterAdd.approvals = metroDB.approvals ++ [e] ∧
      e.action = "approve" ∧ e.previousStatus = none ∧
      e.newStatus = "approved" ∧
      (⟨50, "Dr. New", "new@example.com", "01900000000", "LIC-9",
        "approved", some 2, none, none⟩ : DoctorRec).status = "approved") ∧
    (∃ e, dbAfterApprove.approvals = pendingHDB.approvals ++ [e] ∧
      e.action = "approve" ∧ e.previousStatus = some pendingHDoctor.status ∧
      e.newStatus = "approved" ∧
      ({ pendingHDoctor with status := "approved" } : DoctorRec).status =
        "approved") ∧
    ((verifyDoctor verifyDB ⟨99, 4, "reject", none⟩).2).approvals =
      verifyDB.approvals :=
  ⟨approval_audit_trail.1 emptyDB regReq cityHospital dbAfterReg (by decide),
   approval_audit_trail.2.1 metroDB addDocReq
     ⟨50, "Dr. New", "new@example.com", "01900000000", "LIC-9",
      "approved", some 2, none, none⟩ dbAfterAdd (by decide),
   approval_audit_trail.2.2.1 pendingHDB ⟨5, 2, 3⟩
     { pendingHDoctor with status := "approved" } dbAfterApprove
     pendingHDoctor (by decide) (by decide),
   approval_audit_trail.2.2.2 verifyDB ⟨99, 4, "reject", none⟩⟩

/-! ## C8 / C10 — hospital profile updates -/

/-- C8: on an `approved` hospital, a request mentioning any critical
field (`name`, `address`, `registrationNumber`) is refused with a 403
and nothing is written; a request carrying only non-critical fields
succeeds and writes exactly the non-critical fields present in the
body, leaving every other field (the critical ones included) as it
was. -/
theorem approved_hospital_critical_fields_locked (h : HospitalRec)
    (r : HospitalUpdateReq) (happ : h.status = "approved") :
    ((r.name.isSome ∨ r.address.isSome ∨ r.registrationNumber.isSome) →
      ∃ m, updateHospitalProfile h r = .error (403, m)) ∧
    (r.name = none → r.address = none → r.registrationNumber = none →
      updateHospitalProfile h r =
        .ok { h with contactInfo := r.contactInfo.getD h.contactInfo,
                     departments := r.departments.getD h.departments,
                     logo := r.logo.getD h.logo,
                     facilities := r.facilities.getD h.facilities,
                     services := r.services.getD h.services }) := by
  unfold updateHospitalProfile
  rw [happ]
  constructor
  · intro hcrit
    have hcond : (r.name.isSome || r.address.isSome ||
        r.registrationNumber.isSome) = true := by
      rcases hcrit with h1 | h1 | h1 <;> simp [h1]
    rw [if_pos (by decide), if_pos hcond]
    exact ⟨_, rfl⟩
  · intro hn ha hr
    rw [if_pos (by decide), if_neg (by simp [hn, ha, hr])]

/-- C8 (witness): on the approved `metroHospital`, a name change is
refused with 403 while a departments-only update succeeds and changes
only `departments`. -/
theorem approved_hospital_critical_fields_locked_witness :
    (∃ m, updateHospitalProfile metroHospital
      ⟨some ("Metro Two"), none, none, none, none, none, none, none⟩ =
        .error (403, m)) ∧
    updateHospitalProfile metroHospital
      ⟨none, none, none, none, some ["Cardiology"], none, none, none⟩ =
      .ok { metroHospital with departments := ["Cardiology"] } :=
  ⟨(approved_hospital_critical_fields_locked metroHospital
      ⟨some ("Metro Two"), none, none, none, none, none, none, none⟩
      (by decide)).1 (Or.inl (by decide)),
   (approved_hospital_critical_fields_locked metroHospital
      ⟨none, none, none, none, some ["Cardiology"], none, none, none⟩
      (by decide)).2 rfl rfl rfl⟩

/-- C10: in every status, a successful `updateHospitalProfile` returns a
hospital with the original `registrationNumber`: neither branch lists
`registrationNumber` among the fields it copies, so the field is
write-once from creation. -/
theorem registrationNumber_write_once (h : HospitalRec)
    (r : HospitalUpdateReq) (h' : HospitalRec)
    (hok : updateHospitalProfile h r = .ok h') :
    h'.registrationNumber = h.registrationNumber := by
  unfold updateHospitalProfile at hok
  by_cases hst : (h.status == "approved") = true
  · rw [if_pos hst] at hok
    by_cases hcrit : (r.name.isSome || r.address.isSome ||
        r.registrationNumber.isSome) = true
    · rw [if_pos hcrit] at hok
      exact absurd hok (by simp)
    · rw [if_neg hcrit] at hok
      injection hok with h2
      rw [← h2]
  · rw [if_neg hst] at hok
    injection hok with h2
    rw [← h2]

/-- A not-yet-approved hospital. -/
def pendingHospital : HospitalRec :=
  { metroHospital with id := 9, status := "pending_super_admin" }

/-- C10 (witness): a pre-approval update that even mentions
`registrationNumber` (and changes `name`) still leaves
`registrationNumber` untouched. -/
theorem registrationNumber_write_once_witness :
    updateHospitalProfile pendingHospital
      ⟨some ("Metro Renamed"), none, some ("REG-HACK"), none, none, none,
       none, none⟩ =
      .ok { pendingHospital with name := "Metro Renamed" } ∧
    ({ pendingHospital with name := "Metro Renamed" } :
      HospitalRec).registrationNumber = pendingHospital.registrationNumber :=
  ⟨by decide,
   registrationNumber_write_once pendingHospital
     ⟨some ("Metro Renamed"), none, some ("REG-HACK"), none, none, none,
      none, none⟩
     { pendingHospital with name := "Metro Renamed" } (by decide)⟩

/-! ## C9 — the concurrent double-booking race -/

/-- Two patients racing for serial 2 of the sample doctor on the same
day. -/
def raceReq1 : BookReq := ⟨10, 1, 2, 0, 1⟩

def raceReq2 : BookReq := ⟨11, 1, 2, 0, 1⟩

/-- The appointment the first racer creates (chamber 100 is created on
the way). -/
def raceAppt1 : AppointmentRec :=
  ⟨101, 10, 1, 100, 0, "09:24", "09:48", 24, "SR-101", "new", 500,
   "pending", "pending", none, none, "Serial #2"⟩

/-- The appointment the second racer creates. -/
def raceAppt2 : AppointmentRec :=
  ⟨102, 11, 1, 100, 0, "09:24", "09:48", 24, "SR-102", "new", 500,
   "pending", "pending", none, none, "Serial #2"⟩

/-- C9 (failure demonstration): under the interleaving in which both
handlers run their `findOne` conflict probe before either
`Appointment.create` — a schedule the code permits, having no
transaction or uniqueness constraint around the check-then-insert —
**both** requests succeed, and the final store holds two pending
appointments for the same `(doctorId, date, startTime)` key. -/
theorem interleaved_double_booking :
    (bookSerialPairInterleaved sampleDB raceReq1 raceReq2).1 =
      (.ok raceAppt1, .ok raceAppt2) ∧
    raceAppt1 ∈ (bookSerialPairInterleaved sampleDB raceReq1 raceReq2).2.appointments ∧
    raceAppt2 ∈ (bookSerialPairInterleaved sampleDB raceReq1 raceReq2).2.appointments ∧
    raceAppt1.id ≠ raceAppt2.id ∧
    raceAppt1.doctorId = raceAppt2.doctorId ∧
    raceAppt1.appointmentDate = raceAppt2.appointmentDate ∧
    raceAppt1.startTime = raceAppt2.startTime ∧
    raceAppt1.status = "pending" ∧ raceAppt2.status = "pending" := by
  refine ⟨by decide, by decide, by decide, by decide, by decide, by decide,
    by decide, by decide, by decide⟩
